import Mathlib

/-
Verification development for the Knugget browser extension's client-side
session and request-resilience layer (src/services/auth.ts and
src/services/api.ts).

The TypeScript classes AuthService and ApiService are shallowly embedded:
the mutable AuthService instance becomes an explicit state record
(SvcState) threaded through step functions, asynchronous network and
storage outcomes become explicit oracle parameters or scripted outcome
lists, and promises become identifiers so that single-flight coalescing
is observable.  Timestamps are epoch milliseconds as Nat; the request
timeout value, which the code multiplies by 1.5, is a rational number.
-/

namespace Knugget

/-- User plan, from types.ts: plan is "free" or "premium". -/
inductive Plan where
  | free
  | premium
deriving DecidableEq, Repr

/-- From types.ts interface User. -/
structure User where
  id : String
  name : String
  email : String
  credits : Nat
  plan : Plan
deriving DecidableEq, Repr

/-- From types.ts interface AuthData: token, optional refreshToken, user,
expiresAt (epoch ms), loginTime. -/
structure AuthData where
  token : String
  refreshToken : Option String
  user : User
  expiresAt : Nat
  loginTime : String
deriving DecidableEq, Repr

/-- Observable notifications the auth service emits: the
AUTH_STATE_CHANGED runtime message of notifyAuthStateChanged, and the
AUTH_FAILURE message handleAuthFailure broadcasts to every YouTube tab. -/
inductive AuthEvent where
  | authStateChanged (isAuth : Bool)
  | authFailureBroadcast
deriving DecidableEq, Repr

/-- The mutable fields of the AuthService singleton (auth.ts lines 12-14),
plus a fresh-promise counter so distinct refresh promises get distinct
identifiers, and an event log recording emitted notifications. -/
structure SvcState where
  authData : Option AuthData
  isRefreshing : Bool
  refreshPromise : Option Nat
  nextPid : Nat
  events : List AuthEvent
deriving DecidableEq, Repr

/-- AuthService.isAuthDataValid (auth.ts lines 55-66).  The typeof checks
on token, expiresAt and user.id hold by typing in this model; the
remaining checks are token.length > 0 and expiresAt > Date.now().  Note
the source does not require user.id to be non-empty, only that it is a
string. -/
def isAuthDataValid (a : Option AuthData) (nowMs : Nat) : Bool :=
  match a with
  | none => false
  | some d => decide (0 < d.token.length) && decide (nowMs < d.expiresAt)

/-- Refinement reference, stated from the wording of the specification:
isValid(record) requires the record present, token non-empty,
expiresAt > now AND user.id non-empty.  Used only to compare the spec
against isAuthDataValid, which is translated from the source. -/
def specIsValid (a : Option AuthData) (nowMs : Nat) : Bool :=
  match a with
  | none => false
  | some d =>
      decide (0 < d.token.length) && decide (nowMs < d.expiresAt) &&
      decide (0 < d.user.id.length)

/-- The isAuthenticated getter (auth.ts lines 366-373). -/
def isAuthenticated (s : SvcState) (nowMs : Nat) : Bool :=
  isAuthDataValid s.authData nowMs

/-- The token getter (auth.ts lines 379-381): the stored token when
isAuthenticated, otherwise null. -/
def tokenGetter (s : SvcState) (nowMs : Nat) : Option String :=
  if isAuthenticated s nowMs then s.authData.map AuthData.token else none

/-- AuthService.clearAuthData (auth.ts lines 288-297): drop the record
from memory and from chrome.storage (one field in this model). -/
def clearAuthDataS (s : SvcState) : SvcState :=
  { s with authData := none }

/-- AuthService.handleAuthFailure (auth.ts lines 257-285): clear the
record, emit AUTH_STATE_CHANGED(false), broadcast AUTH_FAILURE to all
YouTube tabs. -/
def handleAuthFailureS (s : SvcState) : SvcState :=
  { s with
      authData := none,
      events := s.events ++
        [AuthEvent.authStateChanged false, AuthEvent.authFailureBroadcast] }

/-- The catch block of handleExternalAuthChange (auth.ts lines 92-102):
clear the possibly corrupted record, emit AUTH_STATE_CHANGED(false),
rethrow a wrapped error. -/
def syncFailResult (s : SvcState) (msg : String) :
    SvcState × Except String Unit :=
  ({ s with
       authData := none,
       events := s.events ++ [AuthEvent.authStateChanged false] },
   Except.error ("Authentication sync failed: " ++ msg))

/-- AuthService.handleExternalAuthChange (auth.ts lines 69-103).
apiOk is the outcome of validateTokenWithAPI (the GET /auth/me
round-trip with the incoming token); storeOk tells whether
storeAuthDataWithRetry eventually persisted the record (false means all
of its attempts failed, so it threw).  Any thrown error lands in the
catch block modelled by syncFailResult. -/
def handleExternalAuthChange (s : SvcState) (incoming : AuthData)
    (nowMs : Nat) (apiOk : Bool) (storeOk : Bool) :
    SvcState × Except String Unit :=
  if !(isAuthDataValid (some incoming) nowMs) then
    syncFailResult s "Invalid auth data received from external source"
  else if !apiOk then
    syncFailResult s "Token validation failed with API"
  else if !storeOk then
    syncFailResult { s with authData := some incoming }
      "Failed to store auth data"
  else
    ({ s with
         authData := some incoming,
         events := s.events ++ [AuthEvent.authStateChanged true] },
     Except.ok ())

/-- Does the held record carry a refresh token
(the this.authData?.refreshToken check of auth.ts line 174)? -/
def hasRefreshToken (s : SvcState) : Bool :=
  match s.authData with
  | none => false
  | some d => d.refreshToken.isSome

/-- What a single synchronous call to AuthService.refreshToken
(auth.ts lines 168-190) does before any suspension: join the in-flight
refresh promise, fail for lack of a refresh token, or start a new
refresh operation. -/
inductive RefreshCallOutcome where
  | joined (pid : Nat)
  | started (pid : Nat)
  | failedNoToken
deriving DecidableEq, Repr

/-- The guard structure of AuthService.refreshToken (auth.ts lines
168-181): if a refresh is already in flight, return the same pending
promise; if no refresh token is held, handleAuthFailure and return
false; otherwise mark refreshing and start one new refresh operation
(one invocation of _performTokenRefresh, hence one network refresh
operation). -/
def refreshTokenCall (s : SvcState) : SvcState × RefreshCallOutcome :=
  if s.isRefreshing && s.refreshPromise.isSome then
    (s, RefreshCallOutcome.joined (s.refreshPromise.getD 0))
  else if !(hasRefreshToken s) then
    (handleAuthFailureS s, RefreshCallOutcome.failedNoToken)
  else
    ({ s with
         isRefreshing := true,
         refreshPromise := some s.nextPid,
         nextPid := s.nextPid + 1 },
     RefreshCallOutcome.started s.nextPid)

/-- Number of refresh network operations a call outcome starts: a
started outcome invokes _performTokenRefresh once, a joined or failed
outcome starts none. -/
def refreshStartsOf : RefreshCallOutcome → Nat
  | RefreshCallOutcome.started _ => 1
  | _ => 0

/-- Run n concurrent callers of refreshToken under the single-threaded
event loop: each caller executes its synchronous guard section to
completion before the next runs (no suspension point lies inside it). -/
def runCallers : SvcState → Nat → SvcState × List RefreshCallOutcome
  | s, 0 => (s, [])
  | s, n + 1 =>
      let p := refreshTokenCall s
      let q := runCallers p.1 n
      (q.1, p.2 :: q.2)

/-- One scripted outcome of a fetch to /auth/refresh inside
_performTokenRefresh: a 2xx response whose envelope carries
success plus data (okSuccess with the decoded new record), a 2xx
response with a bad envelope (okBadBody), a non-2xx status, or a thrown
transport error (timeout, network). -/
inductive RefreshHttp where
  | okSuccess (d : AuthData)
  | okBadBody
  | status (code : Nat)
  | exn
deriving DecidableEq, Repr

/-- AuthService._performTokenRefresh (auth.ts lines 192-254).  The for
loop over attempt = 1..maxRetries is embedded structurally over the
script of fetch outcomes, one per attempt.  Returns the new state, the
boolean the promise resolves to, and the number of network attempts
consumed.  A successful response is handed to handleExternalAuthChange;
if that throws, the catch treats it like any other attempt failure.  A
401 or 403 response is terminal: handleAuthFailure, resolve false.
When the last allowed attempt fails the loop breaks and the terminal
code also runs handleAuthFailure and resolves false. -/
def performRefreshLoop (s : SvcState) (script : List RefreshHttp)
    (attempt maxR nowMs : Nat) (apiOk storeOk : Bool) :
    SvcState × Bool × Nat :=
  if maxR < attempt then (handleAuthFailureS s, false, 0)
  else
    match script with
    | [] => (s, false, 0)
    | RefreshHttp.okSuccess d :: rest =>
        let r := handleExternalAuthChange s d nowMs apiOk storeOk
        match r.2 with
        | Except.ok _ => (r.1, true, 1)
        | Except.error _ =>
            if attempt = maxR then (handleAuthFailureS r.1, false, 1)
            else
              let q := performRefreshLoop r.1 rest (attempt + 1) maxR
                nowMs apiOk storeOk
              (q.1, q.2.1, q.2.2 + 1)
    | RefreshHttp.okBadBody :: rest =>
        if attempt = maxR then (handleAuthFailureS s, false, 1)
        else
          let q := performRefreshLoop s rest (attempt + 1) maxR
            nowMs apiOk storeOk
          (q.1, q.2.1, q.2.2 + 1)
    | RefreshHttp.status c :: rest =>
        if c = 401 ∨ c = 403 then (handleAuthFailureS s, false, 1)
        else if attempt = maxR then (handleAuthFailureS s, false, 1)
        else
          let q := performRefreshLoop s rest (attempt + 1) maxR
            nowMs apiOk storeOk
          (q.1, q.2.1, q.2.2 + 1)
    | RefreshHttp.exn :: rest =>
        if attempt = maxR then (handleAuthFailureS s, false, 1)
        else
          let q := performRefreshLoop s rest (attempt + 1) maxR
            nowMs apiOk storeOk
          (q.1, q.2.1, q.2.2 + 1)

/-- An attempt outcome that sends _performTokenRefresh around its retry
loop rather than ending it: a thrown transport error, a 2xx response
with a bad envelope, or a non-2xx status other than 401 and 403. -/
def RefreshRetryish : RefreshHttp → Prop
  | RefreshHttp.okBadBody => True
  | RefreshHttp.exn => True
  | RefreshHttp.status c => c ≠ 401 ∧ c ≠ 403
  | RefreshHttp.okSuccess _ => False

instance : DecidablePred RefreshRetryish := by
  intro h
  cases h <;> simp [RefreshRetryish] <;> infer_instance

/-- One scripted outcome of a fetch inside
ApiService.makeRequestWithRetry: a 2xx response, a non-2xx status code,
or a thrown error classified by handleRequestError (timeout, network
TypeError, abort, anything else). -/
inductive HttpOutcome where
  | ok
  | status (code : Nat)
  | timeoutErr
  | networkErr
  | abortErr
  | otherErr
deriving DecidableEq, Repr

/-- Caller-facing failure kinds of the request executor, one per return
branch of makeRequestWithRetry and handleRequestError.  scriptEnd marks
a run that consumed its whole outcome script, which the theorems never
rely on. -/
inductive ApiErr where
  | sessionExpired
  | rateLimited
  | insufficientCredits
  | httpError (code : Nat)
  | timeout
  | network
  | aborted
  | unexpected
  | scriptEnd
deriving DecidableEq, Repr

/-- ApiService.retryConfig.retryableStatusCodes (api.ts lines 21-26). -/
def retryableStatusCodes : List Nat := [408, 429, 500, 502, 503, 504]

/-- ApiService.retryConfig numeric defaults (api.ts lines 21-26). -/
def apiBaseDelay : Nat := 1000

/-- retryConfig.maxDelay (api.ts line 24). -/
def apiMaxDelay : Nat := 5000

/-- retryConfig.maxRetries (api.ts line 22). -/
def apiMaxRetries : Nat := 3

/-- The jitter-free part of ApiService.calculateDelay (api.ts lines
256-264): min(baseDelay * 2 ^ (attempt - 1), maxDelay). -/
def backoffBase (attempt : Nat) : Nat :=
  min (apiBaseDelay * 2 ^ (attempt - 1)) apiMaxDelay

/-- ApiService.calculateDelay (api.ts lines 256-264): the capped
exponential delay plus a jitter, which the code draws as
Math.random() * 1000 and is passed here as an oracle. -/
def calculateDelay (attempt : Nat) (jitter : ℚ) : ℚ :=
  (backoffBase attempt : ℚ) + jitter

/-- The backoff delay of AuthService._performTokenRefresh (auth.ts lines
241-248) and of storeAuthDataWithRetry (auth.ts lines 133-136):
min(baseDelay * 2 ^ (attempt - 1), maxDelay), with no jitter term. -/
def authRefreshBackoffDelay (attempt : Nat) : Nat :=
  min (1000 * 2 ^ (attempt - 1)) 5000

/-- The observable outcome of one makeRequestWithRetry run: the result
returned to the caller, the number of network attempts made, the number
of authService.handle401Error invocations, and the timeout passed to
each network attempt in order. -/
structure RunOut where
  result : Except ApiErr Unit
  calls : Nat
  handlerCalls : Nat
  timeouts : List ℚ
deriving Repr

/-- ApiService.makeRequestWithRetry together with handleRequestError
(api.ts lines 73-253), run against a script of fetch outcomes, one
consumed per network attempt.  refreshOuts is the oracle for
authService.isAuthenticated as observed right after each
handle401Error call (one entry consumed per 401 received).  Branches in
source order: 2xx success; 401 (invoke handle401Error, then retry once
with retries set to 1 and attempt set to 2 only when this was attempt 1
and the service is authenticated again, else a session-expired error);
429 (retry while attempt is at most retries, else rate-limited); 402
(insufficient credits, returned immediately); other retryable status
codes (retry while attempt is at most retries); any other status (plain
HTTP error).  Thrown errors: timeout retries with the timeout
multiplied by 1.5, network errors retry with the same timeout, aborts
and unknown errors return immediately. -/
def runRequest (responses : List HttpOutcome) (refreshOuts : List Bool)
    (retries : Nat) (timeout : ℚ) (attempt : Nat) : RunOut :=
  match responses with
  | [] => ⟨Except.error ApiErr.scriptEnd, 0, 0, []⟩
  | HttpOutcome.ok :: _ => ⟨Except.ok (), 1, 0, [timeout]⟩
  | HttpOutcome.status code :: rest =>
      if code = 401 then
        if attempt = 1 ∧ refreshOuts.headD false = true then
          let r := runRequest rest refreshOuts.tail 1 timeout 2
          ⟨r.result, r.calls + 1, r.handlerCalls + 1, timeout :: r.timeouts⟩
        else ⟨Except.error ApiErr.sessionExpired, 1, 1, [timeout]⟩
      else if code = 429 then
        if attempt ≤ retries then
          let r := runRequest rest refreshOuts retries timeout (attempt + 1)
          ⟨r.result, r.calls + 1, r.handlerCalls, timeout :: r.timeouts⟩
        else ⟨Except.error ApiErr.rateLimited, 1, 0, [timeout]⟩
      else if code = 402 then
        ⟨Except.error ApiErr.insufficientCredits, 1, 0, [timeout]⟩
      else if code ∈ retryableStatusCodes ∧ attempt ≤ retries then
        let r := runRequest rest refreshOuts retries timeout (attempt + 1)
        ⟨r.result, r.calls + 1, r.handlerCalls, timeout :: r.timeouts⟩
      else ⟨Except.error (ApiErr.httpError code), 1, 0, [timeout]⟩
  | HttpOutcome.timeoutErr :: rest =>
      if attempt ≤ retries then
        let r := runRequest rest refreshOuts retries (timeout * (3 / 2))
          (attempt + 1)
        ⟨r.result, r.calls + 1, r.handlerCalls, timeout :: r.timeouts⟩
      else ⟨Except.error ApiErr.timeout, 1, 0, [timeout]⟩
  | HttpOutcome.networkErr :: rest =>
      if attempt ≤ retries then
        let r := runRequest rest refreshOuts retries timeout (attempt + 1)
        ⟨r.result, r.calls + 1, r.handlerCalls, timeout :: r.timeouts⟩
      else ⟨Except.error ApiErr.network, 1, 0, [timeout]⟩
  | HttpOutcome.abortErr :: _ =>
      ⟨Except.error ApiErr.aborted, 1, 0, [timeout]⟩
  | HttpOutcome.otherErr :: _ =>
      ⟨Except.error ApiErr.unexpected, 1, 0, [timeout]⟩

/-- Sample user for concrete witnesses. -/
def sampleUser : User :=
  ⟨"u1", "Sample", "s@example.com", 3, Plan.free⟩

/-- Sample record holding a refresh token, expiring at t = 1000. -/
def sampleAuth : AuthData :=
  ⟨"tok", some "rtok", sampleUser, 1000, "t0"⟩

/-- Idle service state holding sampleAuth, no refresh in flight. -/
def idleState : SvcState :=
  ⟨some sampleAuth, false, none, 0, []⟩

/-- A record that is structurally fine but already expired at t = 10. -/
def expiredAuth : AuthData :=
  ⟨"tok", some "rtok", sampleUser, 5, "t0"⟩

/-- A user whose id is the empty string. -/
def emptyIdUser : User :=
  ⟨"", "NoId", "n@example.com", 0, Plan.free⟩

/-- A record that passes every check of isAuthDataValid at t = 0 even
though its user id is empty. -/
def emptyIdAuth : AuthData :=
  ⟨"tok", none, emptyIdUser, 100, "t0"⟩

/-- Service state with no stored record at all. -/
def loggedOutState : SvcState :=
  ⟨none, false, none, 0, []⟩

/-- While a refresh is in flight, every further refreshToken caller
leaves the state untouched and joins the same pending promise. -/
theorem runCallers_inflight (t : SvcState) (p : Nat)
    (hp : t.isRefreshing = true) (hq : t.refreshPromise = some p)
    (n : Nat) :
    runCallers t n = (t, List.replicate n (RefreshCallOutcome.joined p)) := by
  induction n with
  | zero => simp [runCallers]
  | succ k ih =>
      have hcall : refreshTokenCall t = (t, RefreshCallOutcome.joined p) := by
        simp [refreshTokenCall, hp, hq]
      simp [runCallers, hcall, ih, List.replicate]

/-- C1: single-flight refresh.  From an idle state holding a refresh
token, among n + 1 concurrent refreshToken callers the first starts
exactly one refresh network operation (promise id s.nextPid) and every
later caller receives that same pending promise; in total exactly one
refresh operation is started, so all callers await the same result. -/
theorem refresh_single_flight (s : SvcState) (h1 : s.isRefreshing = false)
    (h2 : hasRefreshToken s = true) (n : Nat) :
    (runCallers s (n + 1)).2
      = RefreshCallOutcome.started s.nextPid
        :: List.replicate n (RefreshCallOutcome.joined s.nextPid) ∧
    ((runCallers s (n + 1)).2.map refreshStartsOf).sum = 1 := by
  have hcall : refreshTokenCall s
      = ({ s with
             isRefreshing := true,
             refreshPromise := some s.nextPid,
             nextPid := s.nextPid + 1 },
         RefreshCallOutcome.started s.nextPid) := by
    simp [refreshTokenCall, h1, h2]
  have hrest := runCallers_inflight
    ({ s with
         isRefreshing := true,
         refreshPromise := some s.nextPid,
         nextPid := s.nextPid + 1 }) s.nextPid rfl rfl n
  have hout : (runCallers s (n + 1)).2
      = RefreshCallOutcome.started s.nextPid
        :: List.replicate n (RefreshCallOutcome.joined s.nextPid) := by
    simp [runCallers, hcall, hrest]
  refine ⟨hout, ?_⟩
  simp [hout, refreshStartsOf, List.map_replicate]

/-- C1 witness: three concurrent callers on the concrete idle state make
one started refresh (promise 0) and two joins of promise 0. -/
theorem refresh_single_flight_witness :
    (runCallers idleState 3).2
      = RefreshCallOutcome.started 0
        :: List.replicate 2 (RefreshCallOutcome.joined 0) ∧
    ((runCallers idleState 3).2.map refreshStartsOf).sum = 1 :=
  refresh_single_flight idleState rfl rfl 2

/-- C2 counterexample: the record emptyIdAuth has an empty user id yet
passes the validity check of the source (isAuthDataValid), while the
validity predicate written from the words of the spec (specIsValid,
requiring user.id non-empty) rejects it.  So isAuthenticated is true on
a record whose user.id is empty, refuting the claimed iff. -/
theorem validity_user_id_counterexample :
    isAuthDataValid (some emptyIdAuth) 0 = true ∧
    emptyIdAuth.user.id = "" ∧
    specIsValid (some emptyIdAuth) 0 = false :=
  ⟨rfl, rfl, rfl⟩

/-- C2 (amended): isAuthDataValid holds iff the record is present with a
non-empty token and an expiry strictly in the future (user.id is only
required to be a string, which holds by typing); and whenever the token
getter returns a token, the held record passes that validity check and
the returned token is its token field. -/
theorem validity_invariant_amended (a : Option AuthData) (nowMs : Nat)
    (s : SvcState) (t : String) (h : tokenGetter s nowMs = some t) :
    (isAuthDataValid a nowMs = true ↔
       ∃ d, a = some d ∧ 0 < d.token.length ∧ nowMs < d.expiresAt) ∧
    isAuthDataValid s.authData nowMs = true ∧
    (∃ d, s.authData = some d ∧ d.token = t) := by
  constructor
  · cases a with
    | none => simp [isAuthDataValid]
    | some d => simp [isAuthDataValid]
  · have hv : isAuthenticated s nowMs = true := by
      by_contra hv
      simp [tokenGetter, hv] at h
    refine ⟨hv, ?_⟩
    cases hd : s.authData with
    | none =>
        rw [isAuthenticated, hd] at hv
        simp [isAuthDataValid] at hv
    | some d =>
        refine ⟨d, rfl, ?_⟩
        rw [tokenGetter, hv, hd] at h
        simp [Option.map] at h
        exact h

/-- C2 witness: on the concrete idle state at time 0 the getter returns
the stored token, and the amended characterisation holds there. -/
theorem validity_invariant_amended_witness :
    (isAuthDataValid idleState.authData 0 = true ↔
       ∃ d, idleState.authData = some d ∧
         0 < d.token.length ∧ 0 < d.expiresAt) ∧
    isAuthDataValid idleState.authData 0 = true ∧
    (∃ d, idleState.authData = some d ∧ d.token = "tok") :=
  validity_invariant_amended idleState.authData 0 idleState "tok" rfl

/-- C9: a refreshToken call made with no in-flight refresh fails without
starting any refresh network operation whenever no record is held or
the held record lacks a refresh token; the stored record is cleared and
the AUTH_FAILURE broadcast (with the unauthenticated state-change
notification) is emitted. -/
theorem refresh_without_token_fails (s : SvcState)
    (h1 : s.isRefreshing = false) (h2 : hasRefreshToken s = false) :
    refreshTokenCall s = (handleAuthFailureS s,
      RefreshCallOutcome.failedNoToken) ∧
    refreshStartsOf (refreshTokenCall s).2 = 0 ∧
    (refreshTokenCall s).1.authData = none ∧
    (refreshTokenCall s).1.events
      = s.events ++
        [AuthEvent.authStateChanged false, AuthEvent.authFailureBroadcast] := by
  have hcall : refreshTokenCall s
      = (handleAuthFailureS s, RefreshCallOutcome.failedNoToken) := by
    simp [refreshTokenCall, h1, h2]
  refine ⟨hcall, ?_, ?_, ?_⟩
  · simp [hcall, refreshStartsOf]
  · simp [hcall, handleAuthFailureS]
  · simp [hcall, handleAuthFailureS]

/-- C9 witness: with no record held, the concrete call fails with no
refresh started, leaves no record, and emits the failure events. -/
theorem refresh_without_token_fails_witness :
    refreshTokenCall loggedOutState = (handleAuthFailureS loggedOutState,
      RefreshCallOutcome.failedNoToken) ∧
    refreshStartsOf (refreshTokenCall loggedOutState).2 = 0 ∧
    (refreshTokenCall loggedOutState).1.authData = none ∧
    (refreshTokenCall loggedOutState).1.events
      = loggedOutState.events ++
        [AuthEvent.authStateChanged false, AuthEvent.authFailureBroadcast] :=
  refresh_without_token_fails loggedOutState rfl rfl

/-- C3: handleExternalAuthChange accepts an externally supplied record
(resolving without error) only when both the structural validity check
and the authenticated GET /auth/me round-trip succeed; when either
fails, the operation ends in an error and the record is not kept (the
state holds no record at all). -/
theorem external_auth_requires_validation (s : SvcState)
    (incoming : AuthData) (nowMs : Nat) (apiOk storeOk : Bool) :
    ((handleExternalAuthChange s incoming nowMs apiOk storeOk).2
        = Except.ok () →
       isAuthDataValid (some incoming) nowMs = true ∧ apiOk = true) ∧
    (isAuthDataValid (some incoming) nowMs = false ∨ apiOk = false →
       (handleExternalAuthChange s incoming nowMs apiOk storeOk).1.authData
         = none ∧
       ∃ m, (handleExternalAuthChange s incoming nowMs apiOk storeOk).2
         = Except.error m) := by
  cases hv : isAuthDataValid (some incoming) nowMs <;>
    cases apiOk <;> cases storeOk <;>
      simp [handleExternalAuthChange, syncFailResult, hv]

/-- C3 witness: an expired incoming record is rejected with an error and
the state is left without a record, even though the API oracle would
have accepted the token. -/
theorem external_auth_requires_validation_witness :
    (handleExternalAuthChange idleState expiredAuth 10 true true).1.authData
      = none ∧
    ∃ m, (handleExternalAuthChange idleState expiredAuth 10 true true).2
      = Except.error m :=
  (external_auth_requires_validation idleState expiredAuth 10 true true).2
    (Or.inl rfl)

/-- C10: whenever handleExternalAuthChange fails, because the incoming
record is structurally invalid, or its token fails backend
verification, or persisting it fails after all retries, the previously
held record (however valid) is cleared, the unauthenticated state-change
notification is emitted, and the error is rethrown to the caller. -/
theorem external_auth_failure_clears_state (s : SvcState)
    (incoming : AuthData) (nowMs : Nat) (apiOk storeOk : Bool)
    (hfail : ¬(isAuthDataValid (some incoming) nowMs = true ∧
      apiOk = true ∧ storeOk = true)) :
    (handleExternalAuthChange s incoming nowMs apiOk storeOk).1.authData
      = none ∧
    (handleExternalAuthChange s incoming nowMs apiOk storeOk).1.events
      = s.events ++ [AuthEvent.authStateChanged false] ∧
    ∃ m, (handleExternalAuthChange s incoming nowMs apiOk storeOk).2
      = Except.error m := by
  cases hv : isAuthDataValid (some incoming) nowMs <;>
    cases apiOk <;> cases storeOk <;>
      simp [hv] at hfail ⊢ <;>
        simp [handleExternalAuthChange, syncFailResult, hv]

/-- C10 witness: a failed sync (structurally invalid incoming record)
wipes the previously held, still valid record of the idle state, emits
the unauthenticated notification, and surfaces an error. -/
theorem external_auth_failure_clears_state_witness :
    (handleExternalAuthChange idleState expiredAuth 10 true true).1.authData
      = none ∧
    (handleExternalAuthChange idleState expiredAuth 10 true true).1.events
      = idleState.events ++ [AuthEvent.authStateChanged false] ∧
    ∃ m, (handleExternalAuthChange idleState expiredAuth 10 true true).2
      = Except.error m :=
  external_auth_failure_clears_state idleState expiredAuth 10 true true
    (by decide)

/-- C5: a 402 response makes the executor return the insufficient
credits error immediately, with that one network attempt and no
retries, no matter the attempt number, the retry budget or the rest of
the script; and 402 is not in the retryable status-code set. -/
theorem http402_no_retry (rest : List HttpOutcome) (rs : List Bool)
    (retries : Nat) (t : ℚ) (a : Nat) :
    runRequest (HttpOutcome.status 402 :: rest) rs retries t a
      = ⟨Except.error ApiErr.insufficientCredits, 1, 0, [t]⟩ ∧
    retryableStatusCodes.contains 402 = false := by
  constructor
  · simp [runRequest]
  · rfl

/-- C6: the request executor delay equals
min(baseDelay * 2 ^ (attempt - 1), maxDelay) plus the jitter drawn from
[0, 1000); excluding the jitter it is non-decreasing in the attempt and
never exceeds maxDelay; and the auth refresh backoff uses exactly the
jitter-free part of the same formula. -/
theorem backoff_formula_monotone (a b : Nat) (j : ℚ) (_ha : 1 ≤ a)
    (hab : a ≤ b) (hj0 : 0 ≤ j) (hj1 : j < 1000) :
    calculateDelay a j = (backoffBase a : ℚ) + j ∧
    backoffBase a = min (apiBaseDelay * 2 ^ (a - 1)) apiMaxDelay ∧
    (backoffBase a : ℚ) ≤ calculateDelay a j ∧
    calculateDelay a j < (backoffBase a : ℚ) + 1000 ∧
    backoffBase a ≤ backoffBase b ∧
    backoffBase a ≤ apiMaxDelay ∧
    authRefreshBackoffDelay a = backoffBase a := by
  refine ⟨rfl, rfl, ?_, ?_, ?_, ?_, rfl⟩
  · simp [calculateDelay, hj0]
  · simpa [calculateDelay] using hj1
  · refine min_le_min ?_ le_rfl
    exact Nat.mul_le_mul_left apiBaseDelay
      (Nat.pow_le_pow_right (by norm_num) (Nat.sub_le_sub_right hab 1))
  · exact min_le_right _ _

/-- C6 witness: at attempts 1 and 3 with jitter 500 the formula,
bounds, monotonicity and the auth backoff agreement hold concretely. -/
theorem backoff_formula_monotone_witness :
    calculateDelay 1 500 = (backoffBase 1 : ℚ) + 500 ∧
    backoffBase 1 = min (apiBaseDelay * 2 ^ (1 - 1)) apiMaxDelay ∧
    (backoffBase 1 : ℚ) ≤ calculateDelay 1 500 ∧
    calculateDelay 1 500 < (backoffBase 1 : ℚ) + 1000 ∧
    backoffBase 1 ≤ backoffBase 3 ∧
    backoffBase 1 ≤ apiMaxDelay ∧
    authRefreshBackoffDelay 1 = backoffBase 1 :=
  backoff_formula_monotone 1 3 500 (by norm_num) (by norm_num)
    (by norm_num) (by norm_num)

/-- C4 counterexample: a 401 received on attempt 2 (reached through a
retryable 503 on attempt 1) is not retried although the refresh oracle
reports the session authenticated right after the 401 handler ran: the
run makes only 2 network calls, the scripted success response is never
consumed, and the caller receives the session-expired error.  The claim
requires that any 401 on a protected request whose refresh leaves the
session authenticated is followed by exactly one retry of the request. -/
theorem http401_retry_counterexample :
    runRequest
        [HttpOutcome.status 503, HttpOutcome.status 401, HttpOutcome.ok]
        [true] 3 30000 1
      = ⟨Except.error ApiErr.sessionExpired, 2, 1, [30000, 30000]⟩ := by
  rfl

/-- C4 (amended): on a 401 received on the first attempt the executor
invokes the 401 handler and, when the session is authenticated
afterwards, retries the original request exactly once (with the retry
budget forced to 1 and attempt 2); when the session is not authenticated
afterwards it returns the session-expired error with no retry; a 401
received on any attempt other than the first, including the once
retried request, invokes the handler but is never retried again; in
particular a first-attempt 401 followed by a successful retry yields
success after exactly two network calls and one handler call. -/
theorem http401_handling_amended (rest : List HttpOutcome) (rs : List Bool)
    (retries : Nat) (t : ℚ) (a : Nat) :
    (runRequest (HttpOutcome.status 401 :: rest) (true :: rs) retries t 1
       = let r := runRequest rest rs 1 t 2
         ⟨r.result, r.calls + 1, r.handlerCalls + 1, t :: r.timeouts⟩) ∧
    (rs.headD false = false →
       runRequest (HttpOutcome.status 401 :: rest) rs retries t 1
         = ⟨Except.error ApiErr.sessionExpired, 1, 1, [t]⟩) ∧
    (a ≠ 1 →
       runRequest (HttpOutcome.status 401 :: rest) rs retries t a
         = ⟨Except.error ApiErr.sessionExpired, 1, 1, [t]⟩) ∧
    runRequest (HttpOutcome.status 401 :: HttpOutcome.ok :: rest)
        (true :: rs) retries t 1
      = ⟨Except.ok (), 2, 1, [t, t]⟩ := by
  refine ⟨rfl, ?_, ?_, rfl⟩
  · intro h
    rw [List.headD_eq_head?] at h
    simp [runRequest, h]
  · intro h
    simp [runRequest, h]

/-- C4 witness: a 401 on attempt 2 returns session-expired after one
call and one handler invocation, with no further retry. -/
theorem http401_handling_amended_witness :
    runRequest [HttpOutcome.status 401] ([] : List Bool) 3 30000 2
      = ⟨Except.error ApiErr.sessionExpired, 1, 1, [30000]⟩ :=
  (http401_handling_amended [] [] 3 30000 2).2.2.1 (by decide)

/-- C8 counterexample: starting from the largest timeout the code ever
configures (60000 ms, used for summary generation), four consecutive
transport timeouts drive the per-attempt timeout through 60000, 90000,
135000 and 202500 ms: each retry multiplies by 1.5 and no cap is ever
applied, the final value exceeding every duration constant the
configuration holds (maxDelay 5000, default timeout 30000, summary
timeout 60000). -/
theorem timeout_cap_counterexample :
    (runRequest (List.replicate 4 HttpOutcome.timeoutErr)
        [] 3 60000 1).timeouts
      = [60000, 90000, 135000, 202500] ∧
    ((202500 : ℚ) > 60000 ∧ (202500 : ℚ) > 30000 ∧ (202500 : ℚ) > 5000) := by
  refine ⟨?_, by norm_num, by norm_num, by norm_num⟩
  norm_num [runRequest, List.replicate]

/-- C8 (amended): when a request fails with a transport timeout and the
attempt number is within the retry budget, the executor retries with
the timeout multiplied by 1.5 and no cap applied; once the budget is
exhausted it returns the timeout error to the caller; a full run of
maxRetries retries from the default 30000 ms timeout uses timeouts
30000, 45000, 67500, 101250 and ends in the timeout error after four
network attempts. -/
theorem timeout_retry_amended (rest : List HttpOutcome) (rs : List Bool)
    (retries : Nat) (t : ℚ) (a : Nat) :
    (a ≤ retries →
       runRequest (HttpOutcome.timeoutErr :: rest) rs retries t a
         = let r := runRequest rest rs retries (t * (3 / 2)) (a + 1)
           ⟨r.result, r.calls + 1, r.handlerCalls, t :: r.timeouts⟩) ∧
    (retries < a →
       runRequest (HttpOutcome.timeoutErr :: rest) rs retries t a
         = ⟨Except.error ApiErr.timeout, 1, 0, [t]⟩) ∧
    runRequest (List.replicate 4 HttpOutcome.timeoutErr) [] 3 30000 1
      = ⟨Except.error ApiErr.timeout, 4, 0, [30000, 45000, 67500, 101250]⟩ := by
  refine ⟨?_, ?_, ?_⟩
  · intro h
    simp [runRequest, h]
  · intro h
    simp [runRequest, Nat.not_le_of_lt h]
  · norm_num [runRequest, List.replicate]

/-- C8 witness: with the budget exhausted (attempt 4 of 3 retries) a
transport timeout returns the timeout error immediately. -/
theorem timeout_retry_amended_witness :
    runRequest [HttpOutcome.timeoutErr] ([] : List Bool) 3 30000 4
      = ⟨Except.error ApiErr.timeout, 1, 0, [30000]⟩ :=
  (timeout_retry_amended [] [] 3 30000 4).2.1 (by norm_num)

/-- A 401 or 403 from /auth/refresh ends the refresh loop at once:
handleAuthFailure runs and the promise resolves false after the single
network attempt, whatever outcomes the script still holds. -/
theorem performRefreshLoop_status_terminal (s : SvcState)
    (rest : List RefreshHttp) (attempt maxR nowMs : Nat)
    (apiOk storeOk : Bool) (c : Nat) (hc : c = 401 ∨ c = 403)
    (h1 : attempt ≤ maxR) :
    performRefreshLoop s (RefreshHttp.status c :: rest) attempt maxR
        nowMs apiOk storeOk
      = (handleAuthFailureS s, false, 1) := by
  have hlt : ¬ maxR < attempt := Nat.not_lt.mpr h1
  rcases hc with rfl | rfl <;> simp [performRefreshLoop, hlt]

/-- A retry-causing outcome on a non-final attempt sends the loop to the
next attempt with the state unchanged, adding one network attempt. -/
theorem performRefreshLoop_retry_step (s : SvcState) (x : RefreshHttp)
    (rest : List RefreshHttp) (attempt maxR nowMs : Nat)
    (apiOk storeOk : Bool) (hr : RefreshRetryish x) (h1 : attempt ≤ maxR)
    (h2 : attempt ≠ maxR) :
    performRefreshLoop s (x :: rest) attempt maxR nowMs apiOk storeOk
      = (let q := performRefreshLoop s rest (attempt + 1) maxR nowMs
           apiOk storeOk
         (q.1, q.2.1, q.2.2 + 1)) := by
  have hlt : ¬ maxR < attempt := Nat.not_lt.mpr h1
  cases x with
  | okBadBody => simp [performRefreshLoop, hlt, h2]
  | exn => simp [performRefreshLoop, hlt, h2]
  | status c =>
      obtain ⟨hc1, hc2⟩ := hr
      simp [performRefreshLoop, hlt, h2, hc1, hc2]
  | okSuccess d => exact absurd hr (by simp [RefreshRetryish])

/-- A retry-causing outcome on the final allowed attempt breaks the
loop: handleAuthFailure runs and the promise resolves false. -/
theorem performRefreshLoop_last_step (s : SvcState) (x : RefreshHttp)
    (rest : List RefreshHttp) (attempt maxR nowMs : Nat)
    (apiOk storeOk : Bool) (hr : RefreshRetryish x)
    (h2 : attempt = maxR) :
    performRefreshLoop s (x :: rest) attempt maxR nowMs apiOk storeOk
      = (handleAuthFailureS s, false, 1) := by
  have hlt : ¬ maxR < attempt := by omega
  cases x with
  | okBadBody => simp [performRefreshLoop, hlt, h2]
  | exn => simp [performRefreshLoop, hlt, h2]
  | status c =>
      obtain ⟨hc1, hc2⟩ := hr
      simp [performRefreshLoop, hlt, h2, hc1, hc2]
  | okSuccess d => exact absurd hr (by simp [RefreshRetryish])

/-- When every scripted outcome is retry-causing and the script is
exactly long enough to cover the remaining attempts, the loop exhausts
its budget: every attempt is consumed, then handleAuthFailure runs and
the promise resolves false. -/
theorem performRefreshLoop_exhaust (maxR nowMs : Nat)
    (apiOk storeOk : Bool) :
    ∀ (script : List RefreshHttp) (s : SvcState) (attempt : Nat),
      (∀ x ∈ script, RefreshRetryish x) → attempt ≤ maxR →
      attempt + script.length = maxR + 1 →
      performRefreshLoop s script attempt maxR nowMs apiOk storeOk
        = (handleAuthFailureS s, false, script.length) := by
  intro script
  induction script with
  | nil =>
      intro s attempt _ h1 hlen
      exfalso
      simp at hlen
      omega
  | cons x xs ih =>
      intro s attempt hretry h1 hlen
      by_cases he : attempt = maxR
      · have hx0 : xs.length = 0 := by
          simp only [List.length_cons] at hlen
          omega
        have hxs : xs = [] := List.length_eq_zero.mp hx0
        subst hxs
        simpa using performRefreshLoop_last_step s x [] attempt maxR nowMs
          apiOk storeOk (hretry x (List.mem_cons_self x [])) he
      · rw [performRefreshLoop_retry_step s x xs attempt maxR nowMs apiOk
          storeOk (hretry x (List.mem_cons_self x xs)) h1 he]
        have hih := ih s (attempt + 1)
          (fun y hy => hretry y (List.mem_cons_of_mem x hy))
          (by omega)
          (by simp only [List.length_cons] at hlen; omega)
        simp [hih]

/-- C7: terminal refresh failure.  A 401 or 403 from /auth/refresh ends
the refresh as a failure after that single attempt with no further
retries; a script of nothing but retry-causing failures covering all
maxRetries attempts likewise ends as a failure; in both cases the final
state is handleAuthFailureS s, whose record is cleared and whose event
log gains the unauthenticated notification and the AUTH_FAILURE
broadcast to the other contexts. -/
theorem refresh_terminal_failure (s : SvcState)
    (rest script : List RefreshHttp) (attempt maxR nowMs : Nat)
    (apiOk storeOk : Bool) (c : Nat) (hc : c = 401 ∨ c = 403)
    (hatt : attempt ≤ maxR) (hretry : ∀ x ∈ script, RefreshRetryish x)
    (hlen : script.length = maxR) (hpos : 0 < maxR) :
    performRefreshLoop s (RefreshHttp.status c :: rest) attempt maxR
        nowMs apiOk storeOk
      = (handleAuthFailureS s, false, 1) ∧
    performRefreshLoop s script 1 maxR nowMs apiOk storeOk
      = (handleAuthFailureS s, false, maxR) ∧
    (handleAuthFailureS s).authData = none ∧
    (handleAuthFailureS s).events
      = s.events ++
        [AuthEvent.authStateChanged false, AuthEvent.authFailureBroadcast] := by
  refine ⟨performRefreshLoop_status_terminal s rest attempt maxR nowMs
    apiOk storeOk c hc hatt, ?_, rfl, rfl⟩
  have := performRefreshLoop_exhaust maxR nowMs apiOk storeOk script s 1
    hretry hpos (by omega)
  rw [this, hlen]

/-- C7 witness: with the configured maxRetries = 3, a first-attempt 401
from /auth/refresh is terminal after one attempt, and three straight
thrown errors exhaust the budget; both end unauthenticated with the
record cleared and the failure events emitted. -/
theorem refresh_terminal_failure_witness :
    performRefreshLoop idleState [RefreshHttp.status 401] 1 3 0 true true
      = (handleAuthFailureS idleState, false, 1) ∧
    performRefreshLoop idleState
        [RefreshHttp.exn, RefreshHttp.exn, RefreshHttp.exn] 1 3 0 true true
      = (handleAuthFailureS idleState, false, 3) ∧
    (handleAuthFailureS idleState).authData = none ∧
    (handleAuthFailureS idleState).events
      = idleState.events ++
        [AuthEvent.authStateChanged false, AuthEvent.authFailureBroadcast] :=
  refresh_terminal_failure idleState []
    [RefreshHttp.exn, RefreshHttp.exn, RefreshHttp.exn] 1 3 0 true true
    401 (Or.inl rfl) (by norm_num) (by decide) rfl (by norm_num)

end Knugget
